import Mathlib

/-!
Verification of the Amway IBO compensation engine (src/ibo.py).

The Python code is shallowly embedded over exact rationals (`ℚ`): Python
floats become `ℚ` (every numeric literal in the source is exactly
representable), the sponsorship tree becomes an inductive type whose nodes
carry `personal_pv`, `vcs_pv` and the `frontline` list, and the fallible
`calculate_personal_bonus` / `calculate_total_earnings` become
`Except String ℚ` where the Python code raises `ValueError`.
-/

namespace Amway

/-- One entry of `AmwayIBO.BONUS_SCHEDULE`: a percentage together with an
inclusive `[min, max]` PV range; `tmax = none` models the Python
`float('inf')` upper bound of the top tier. -/
structure Tier where
  pct : ℚ
  tmin : ℚ
  tmax : Option ℚ
deriving Repr, DecidableEq

/-- The chained comparison `pv_range["min"] <= total_pv <= pv_range["max"]`
from `calculate_bonus_percentage`; comparison with `float('inf')` is
always true. -/
def tierContains (t : Tier) (v : ℚ) : Bool :=
  match t.tmax with
  | none => decide (t.tmin ≤ v)
  | some m => decide (t.tmin ≤ v) && decide (v ≤ m)

/-- `AmwayIBO.BONUS_SCHEDULE` (src/ibo.py lines 64-74), in the dict's
insertion order. -/
def BONUS_SCHEDULE : List Tier :=
  [ ⟨0.03, 100, some 299.99⟩,
    ⟨0.06, 300, some 599.99⟩,
    ⟨0.09, 600, some 999.99⟩,
    ⟨0.12, 1000, some 1499.99⟩,
    ⟨0.15, 1500, some 2499.99⟩,
    ⟨0.18, 2500, some 3999.99⟩,
    ⟨0.21, 4000, some 5999.99⟩,
    ⟨0.23, 6000, some 7499.99⟩,
    ⟨0.25, 7500, none⟩ ]

/-- The class constant BV_TO_PV_RATIO = 3.36 of the `AmwayIBO` class. -/
def BV_TO_PV_RATIO : ℚ := 3.36

/-- The loop of `calculate_bonus_percentage`: first tier whose range
contains the value wins (the loop breaks), default `0.0` when none does. -/
def lookupSchedule : List Tier → ℚ → ℚ
  | [], _ => 0.0
  | t :: ts, v => if tierContains t v then t.pct else lookupSchedule ts v

/-- The bonus-percentage lookup as a function of the PV value: what
`calculate_bonus_percentage` does with `total_pv`. -/
def bonusPercentageOfPV (v : ℚ) : ℚ := lookupSchedule BONUS_SCHEDULE v

/-- An `AmwayIBO` tree node: its `_personal_pv`, `_vcs_pv` and `frontline`
list. The `sponsor` back-reference, `registration_month` and `level` are
not read by any computation the claims mention and are omitted. -/
inductive IBO : Type where
  | node (personal_pv vcs_pv : ℚ) (frontline : List IBO)
deriving Repr

/-- Field accessor for `_personal_pv`. -/
def IBO.personal_pv : IBO → ℚ
  | .node p _ _ => p

/-- Field accessor for `_vcs_pv`. -/
def IBO.vcs_pv : IBO → ℚ
  | .node _ v _ => v

/-- Field accessor for `frontline`. -/
def IBO.frontline : IBO → List IBO
  | .node _ _ fl => fl

mutual

/-- `AmwayIBO.calculate_group_pv`: personal PV plus the sum of the group
PV of each frontline child, recursively. -/
def calculate_group_pv : IBO → ℚ
  | .node p _ fl => p + sum_group_pv fl

/-- The `sum(frontline.calculate_group_pv() for frontline in self.frontline)`
part of `calculate_group_pv`. -/
def sum_group_pv : List IBO → ℚ
  | [] => 0
  | i :: is => calculate_group_pv i + sum_group_pv is

end

/-- `AmwayIBO.calculate_bonus_percentage`: look the group PV up in the
schedule. -/
def calculate_bonus_percentage (i : IBO) : ℚ :=
  bonusPercentageOfPV (calculate_group_pv i)

/-- `AmwayIBO.calculate_group_bv`: group PV times the BV/PV ratio. -/
def calculate_group_bv (i : IBO) : ℚ :=
  calculate_group_pv i * BV_TO_PV_RATIO

/-- `AmwayIBO.calculate_personal_bv`: personal PV times the BV/PV ratio. -/
def calculate_personal_bv (i : IBO) : ℚ :=
  i.personal_pv * BV_TO_PV_RATIO

/-- `AmwayIBO.calculate_personal_bonus`: raises (here: `Except.error`) when
`vcs_pv < 0.6 * personal_pv`, otherwise bonus percentage times personal
BV. -/
def calculate_personal_bonus (i : IBO) : Except String ℚ :=
  if i.vcs_pv < 0.6 * i.personal_pv then
    .error "VCS PV must be at least 60% of personal PV to qualify for the bonus."
  else
    .ok (calculate_bonus_percentage i * calculate_personal_bv i)

/-- The `DifferentialBonus` pair: `ibo1` is the upline, `ibo2` the direct
frontline child it is compared against. -/
structure DifferentialBonus where
  ibo1 : IBO
  ibo2 : IBO

/-- `DifferentialBonus.calculate_multiplier`:
`max(0.0, ibo1.calculate_bonus_percentage() - ibo2.calculate_bonus_percentage())`. -/
def DifferentialBonus.calculate_multiplier (d : DifferentialBonus) : ℚ :=
  max 0.0 (calculate_bonus_percentage d.ibo1 - calculate_bonus_percentage d.ibo2)

/-- `DifferentialBonus.calculate_amount`:
`calculate_multiplier() * ibo2.calculate_group_pv() * BV_TO_PV_RATIO`. -/
def DifferentialBonus.calculate_amount (d : DifferentialBonus) : ℚ :=
  d.calculate_multiplier * calculate_group_pv d.ibo2 * BV_TO_PV_RATIO

/-- The `differential_bonus_list` property: one `DifferentialBonus` per
frontline child. -/
def differential_bonus_list (i : IBO) : List DifferentialBonus :=
  i.frontline.map (fun c => ⟨i, c⟩)

/-- `AmwayIBO.calculate_differential_bonus`: sum of the amounts over the
frontline. -/
def calculate_differential_bonus (i : IBO) : ℚ :=
  ((differential_bonus_list i).map DifferentialBonus.calculate_amount).sum

/-- `AmwayIBO.calculate_csi_percentage`: `max(0.0, 0.1 - bonus_percentage)`. -/
def calculate_csi_percentage (i : IBO) : ℚ :=
  max 0.0 (0.1 - calculate_bonus_percentage i)

/-- `AmwayIBO.calculate_csi_bonus`: `csi_percentage * vcs_pv * ratio`,
capped at 75.0. -/
def calculate_csi_bonus (i : IBO) : ℚ :=
  min (calculate_csi_percentage i * i.vcs_pv * BV_TO_PV_RATIO) 75.0

/-- `AmwayIBO.calculate_retail_profit`: `0.1 * vcs_pv * ratio`. -/
def calculate_retail_profit (i : IBO) : ℚ :=
  0.1 * i.vcs_pv * BV_TO_PV_RATIO

/-- `AmwayIBO.calculate_total_earnings`: the four earnings categories
summed; the qualification error of `calculate_personal_bonus`
propagates. -/
def calculate_total_earnings (i : IBO) : Except String ℚ := do
  let pb ← calculate_personal_bonus i
  return pb + calculate_differential_bonus i + calculate_csi_bonus i +
    calculate_retail_profit i

mutual

/-- Holds of exactly the trees the repository can build: `AmwayIBO.__init__`
sets `_personal_pv = 150` and `_vcs_pv = 90` on every node, and nothing in
the file ever writes those fields again. -/
def builtByCtor : IBO → Bool
  | .node p v fl => decide (p = 150) && decide (v = 90) && builtByCtorList fl

/-- `builtByCtor` on every tree of a list. -/
def builtByCtorList : List IBO → Bool
  | [] => true
  | i :: is => builtByCtor i && builtByCtorList is

end

mutual

/-- Every node of the tree has nonnegative `personal_pv` (true of every
tree the repository builds, where `personal_pv` is always 150). -/
def allNonnegPV : IBO → Bool
  | .node p _ fl => decide (0 ≤ p) && allNonnegPVList fl

/-- `allNonnegPV` on every tree of a list. -/
def allNonnegPVList : List IBO → Bool
  | [] => true
  | i :: is => allNonnegPV i && allNonnegPVList is

end

/-- The bonus-percentage lookup restricted to whole hundredths: the value
of `bonusPercentageOfPV (n / 100)`, with every tier boundary scaled by
100 into `ℤ` (see `bonusPercentageOfPV_hundredths`). -/
def pctHundredths (n : ℤ) : ℚ :=
  if 10000 ≤ n ∧ n ≤ 29999 then 0.03
  else if 30000 ≤ n ∧ n ≤ 59999 then 0.06
  else if 60000 ≤ n ∧ n ≤ 99999 then 0.09
  else if 100000 ≤ n ∧ n ≤ 149999 then 0.12
  else if 150000 ≤ n ∧ n ≤ 249999 then 0.15
  else if 250000 ≤ n ∧ n ≤ 399999 then 0.18
  else if 400000 ≤ n ∧ n ≤ 599999 then 0.21
  else if 600000 ≤ n ∧ n ≤ 749999 then 0.23
  else if 750000 ≤ n then 0.25
  else 0

lemma const_le_div100 (c : ℚ) (m n : ℤ) (h : c * 100 = (m : ℚ)) :
    (c ≤ (n : ℚ) / 100) ↔ (m ≤ n) := by
  rw [le_div_iff (by norm_num : (0:ℚ) < 100), h, Int.cast_le]

lemma div100_le_const (c : ℚ) (m n : ℤ) (h : c * 100 = (m : ℚ)) :
    ((n : ℚ) / 100 ≤ c) ↔ (n ≤ m) := by
  rw [div_le_iff (by norm_num : (0:ℚ) < 100), h, Int.cast_le]

/-- On whole hundredths `n / 100` the schedule lookup agrees with the
integer-threshold step function `pctHundredths`. -/
lemma bonusPercentageOfPV_hundredths (n : ℤ) :
    bonusPercentageOfPV ((n : ℚ) / 100) = pctHundredths n := by
  unfold bonusPercentageOfPV BONUS_SCHEDULE
  simp only [lookupSchedule, tierContains, Bool.and_eq_true, decide_eq_true_eq,
    const_le_div100 100 10000 n (by norm_num),
    div100_le_const 299.99 29999 n (by norm_num),
    const_le_div100 300 30000 n (by norm_num),
    div100_le_const 599.99 59999 n (by norm_num),
    const_le_div100 600 60000 n (by norm_num),
    div100_le_const 999.99 99999 n (by norm_num),
    const_le_div100 1000 100000 n (by norm_num),
    div100_le_const 1499.99 149999 n (by norm_num),
    const_le_div100 1500 150000 n (by norm_num),
    div100_le_const 2499.99 249999 n (by norm_num),
    const_le_div100 2500 250000 n (by norm_num),
    div100_le_const 3999.99 399999 n (by norm_num),
    const_le_div100 4000 400000 n (by norm_num),
    div100_le_const 5999.99 599999 n (by norm_num),
    const_le_div100 6000 600000 n (by norm_num),
    div100_le_const 7499.99 749999 n (by norm_num),
    const_le_div100 7500 750000 n (by norm_num)]
  unfold pctHundredths
  split_ifs <;> norm_num

lemma pctHundredths_nonneg (n : ℤ) : 0 ≤ pctHundredths n := by
  unfold pctHundredths
  split_ifs <;> norm_num

lemma pctHundredths_ge3 (n : ℤ) (h : 10000 ≤ n) : 0.03 ≤ pctHundredths n := by
  unfold pctHundredths
  split_ifs <;> first | (exfalso; omega) | norm_num

lemma pctHundredths_ge6 (n : ℤ) (h : 30000 ≤ n) : 0.06 ≤ pctHundredths n := by
  unfold pctHundredths
  split_ifs <;> first | (exfalso; omega) | norm_num

lemma pctHundredths_ge9 (n : ℤ) (h : 60000 ≤ n) : 0.09 ≤ pctHundredths n := by
  unfold pctHundredths
  split_ifs <;> first | (exfalso; omega) | norm_num

lemma pctHundredths_ge12 (n : ℤ) (h : 100000 ≤ n) : 0.12 ≤ pctHundredths n := by
  unfold pctHundredths
  split_ifs <;> first | (exfalso; omega) | norm_num

lemma pctHundredths_ge15 (n : ℤ) (h : 150000 ≤ n) : 0.15 ≤ pctHundredths n := by
  unfold pctHundredths
  split_ifs <;> first | (exfalso; omega) | norm_num

lemma pctHundredths_ge18 (n : ℤ) (h : 250000 ≤ n) : 0.18 ≤ pctHundredths n := by
  unfold pctHundredths
  split_ifs <;> first | (exfalso; omega) | norm_num

lemma pctHundredths_ge21 (n : ℤ) (h : 400000 ≤ n) : 0.21 ≤ pctHundredths n := by
  unfold pctHundredths
  split_ifs <;> first | (exfalso; omega) | norm_num

lemma pctHundredths_ge23 (n : ℤ) (h : 600000 ≤ n) : 0.23 ≤ pctHundredths n := by
  unfold pctHundredths
  split_ifs <;> first | (exfalso; omega) | norm_num

lemma pctHundredths_ge25 (n : ℤ) (h : 750000 ≤ n) : 0.25 ≤ pctHundredths n := by
  unfold pctHundredths
  split_ifs <;> first | (exfalso; omega) | norm_num

lemma pctHundredths_eval0 (n : ℤ) (h : n < 10000) : pctHundredths n = 0 := by
  unfold pctHundredths
  split_ifs <;> first | rfl | (exfalso; omega)

lemma pctHundredths_eval3 (n : ℤ) (h1 : 10000 ≤ n) (h2 : n ≤ 29999) :
    pctHundredths n = 0.03 := by
  unfold pctHundredths
  split_ifs <;> first | rfl | (exfalso; omega)

lemma pctHundredths_eval6 (n : ℤ) (h1 : 30000 ≤ n) (h2 : n ≤ 59999) :
    pctHundredths n = 0.06 := by
  unfold pctHundredths
  split_ifs <;> first | rfl | (exfalso; omega)

lemma pctHundredths_eval9 (n : ℤ) (h1 : 60000 ≤ n) (h2 : n ≤ 99999) :
    pctHundredths n = 0.09 := by
  unfold pctHundredths
  split_ifs <;> first | rfl | (exfalso; omega)

lemma pctHundredths_eval12 (n : ℤ) (h1 : 100000 ≤ n) (h2 : n ≤ 149999) :
    pctHundredths n = 0.12 := by
  unfold pctHundredths
  split_ifs <;> first | rfl | (exfalso; omega)

lemma pctHundredths_eval15 (n : ℤ) (h1 : 150000 ≤ n) (h2 : n ≤ 249999) :
    pctHundredths n = 0.15 := by
  unfold pctHundredths
  split_ifs <;> first | rfl | (exfalso; omega)

lemma pctHundredths_eval18 (n : ℤ) (h1 : 250000 ≤ n) (h2 : n ≤ 399999) :
    pctHundredths n = 0.18 := by
  unfold pctHundredths
  split_ifs <;> first | rfl | (exfalso; omega)

lemma pctHundredths_eval21 (n : ℤ) (h1 : 400000 ≤ n) (h2 : n ≤ 599999) :
    pctHundredths n = 0.21 := by
  unfold pctHundredths
  split_ifs <;> first | rfl | (exfalso; omega)

lemma pctHundredths_eval23 (n : ℤ) (h1 : 600000 ≤ n) (h2 : n ≤ 749999) :
    pctHundredths n = 0.23 := by
  unfold pctHundredths
  split_ifs <;> first | rfl | (exfalso; omega)

lemma pctHundredths_eval25 (n : ℤ) (h : 750000 ≤ n) : pctHundredths n = 0.25 := by
  unfold pctHundredths
  split_ifs <;> first | rfl | (exfalso; omega)

/-- `pctHundredths` is monotone. -/
lemma pctHundredths_mono (a b : ℤ) (h : a ≤ b) :
    pctHundredths a ≤ pctHundredths b := by
  by_cases c1 : a < 10000
  · rw [pctHundredths_eval0 a c1]
    exact pctHundredths_nonneg b
  by_cases c2 : a ≤ 29999
  · rw [pctHundredths_eval3 a (by omega) (by omega)]
    exact pctHundredths_ge3 b (by omega)
  by_cases c3 : a ≤ 59999
  · rw [pctHundredths_eval6 a (by omega) (by omega)]
    exact pctHundredths_ge6 b (by omega)
  by_cases c4 : a ≤ 99999
  · rw [pctHundredths_eval9 a (by omega) (by omega)]
    exact pctHundredths_ge9 b (by omega)
  by_cases c5 : a ≤ 149999
  · rw [pctHundredths_eval12 a (by omega) (by omega)]
    exact pctHundredths_ge12 b (by omega)
  by_cases c6 : a ≤ 249999
  · rw [pctHundredths_eval15 a (by omega) (by omega)]
    exact pctHundredths_ge15 b (by omega)
  by_cases c7 : a ≤ 399999
  · rw [pctHundredths_eval18 a (by omega) (by omega)]
    exact pctHundredths_ge18 b (by omega)
  by_cases c8 : a ≤ 599999
  · rw [pctHundredths_eval21 a (by omega) (by omega)]
    exact pctHundredths_ge21 b (by omega)
  by_cases c9 : a ≤ 749999
  · rw [pctHundredths_eval23 a (by omega) (by omega)]
    exact pctHundredths_ge23 b (by omega)
  rw [pctHundredths_eval25 a (by omega)]
  exact pctHundredths_ge25 b (by omega)

/-- `pctHundredths` is nonzero from 10000 (that is, PV 100) upward. -/
lemma pctHundredths_ne_zero (n : ℤ) (h : 10000 ≤ n) : pctHundredths n ≠ 0 := by
  unfold pctHundredths
  split_ifs <;> first | (exfalso; omega) | norm_num

/-- A nonzero lookup result comes from a matching tier of the list. -/
lemma lookupSchedule_ne_zero (l : List Tier) (v : ℚ) (h : lookupSchedule l v ≠ 0) :
    ∃ t ∈ l, tierContains t v = true ∧ lookupSchedule l v = t.pct := by
  induction l with
  | nil => norm_num [lookupSchedule] at h
  | cons t ts ih =>
    by_cases hc : tierContains t v = true
    · exact ⟨t, List.mem_cons_self t ts, hc, by simp [lookupSchedule, hc]⟩
    · have hrec : lookupSchedule (t :: ts) v = lookupSchedule ts v := by
        simp [lookupSchedule, hc]
      rw [hrec] at h ⊢
      obtain ⟨u, hu, hcu, hval⟩ := ih h
      exact ⟨u, List.mem_cons_of_mem t hu, hcu, hval⟩

lemma sum_group_pv_eq_map_sum (l : List IBO) :
    sum_group_pv l = (l.map calculate_group_pv).sum := by
  induction l with
  | nil => rfl
  | cons i is ih => simp [sum_group_pv, ih]

mutual

theorem group_pv_nonneg : ∀ i : IBO, allNonnegPV i = true → 0 ≤ calculate_group_pv i
  | .node p v fl, h => by
    have h1 : (0 ≤ p) ∧ allNonnegPVList fl = true := by
      simpa [allNonnegPV, Bool.and_eq_true, decide_eq_true_eq] using h
    have h2 := sum_group_pv_nonneg fl h1.2
    simp only [calculate_group_pv]
    linarith [h1.1]

theorem sum_group_pv_nonneg : ∀ l : List IBO, allNonnegPVList l = true → 0 ≤ sum_group_pv l
  | [], _ => le_refl 0
  | i :: is, h => by
    have h1 : allNonnegPV i = true ∧ allNonnegPVList is = true := by
      simpa [allNonnegPVList, Bool.and_eq_true] using h
    have h2 := group_pv_nonneg i h1.1
    have h3 := sum_group_pv_nonneg is h1.2
    simp only [sum_group_pv]
    linarith

end

/-- C1 fails as stated: 299.995 falls in the gap between the inclusive
tier maxima 299.99 and the next tier minimum 300, where the lookup falls
back to 0.0, so the lookup is not monotone over all PV values:
`bonus_percentage(200) = 0.03 > 0 = bonus_percentage(299.995)` although
`200 < 299.995`. -/
theorem C1_counterexample :
    (200 : ℚ) < 299.995 ∧
      ¬ bonusPercentageOfPV 200 ≤ bonusPercentageOfPV 299.995 := by
  norm_num [bonusPercentageOfPV, lookupSchedule, BONUS_SCHEDULE, tierContains]

/-- C1 (amended): the bonus-percentage lookup is monotonically
non-decreasing on PV values that are whole hundredths (the granularity the
`.99` tier maxima are built for; every group PV the program computes is an
integer, hence a whole hundredth): for all `a < b`,
`bonus_percentage(a/100) ≤ bonus_percentage(b/100)`. -/
theorem C1_monotone_on_hundredths (a b : ℤ) (h : a < b) :
    bonusPercentageOfPV ((a : ℚ) / 100) ≤ bonusPercentageOfPV ((b : ℚ) / 100) := by
  rw [bonusPercentageOfPV_hundredths, bonusPercentageOfPV_hundredths]
  exact pctHundredths_mono a b (le_of_lt h)

/-- Witness for C1 at PV values 200 and 300. -/
theorem C1_witness :
    bonusPercentageOfPV (((20000 : ℤ) : ℚ) / 100) ≤
      bonusPercentageOfPV (((30000 : ℤ) : ℚ) / 100) :=
  C1_monotone_on_hundredths 20000 30000 (by decide)

/-- C2 fails as stated: the PV value 299.995 is ≥ 100 yet lies in no
tier's inclusive `[min, max]` range (the schedule jumps from max 299.99 to
min 300), so `calculate_bonus_percentage` returns the 0.0 default there. -/
theorem C2_counterexample :
    (100 : ℚ) ≤ 299.995 ∧
      (∀ t ∈ BONUS_SCHEDULE, tierContains t 299.995 = false) ∧
      bonusPercentageOfPV 299.995 = 0 := by
  refine ⟨by norm_num, ?_,
    by norm_num [bonusPercentageOfPV, lookupSchedule, BONUS_SCHEDULE, tierContains]⟩
  intro t ht
  fin_cases ht <;> norm_num [tierContains]

/-- C2 (amended): the schedule covers every volume value ≥ 100 that is a
whole hundredth (in particular every integer group PV the program can
produce): some tier's inclusive range contains it, the lookup returns that
tier's percentage, and that percentage is nonzero. -/
theorem C2_covers_hundredths (n : ℤ) (h : 10000 ≤ n) :
    (∃ t ∈ BONUS_SCHEDULE, tierContains t ((n : ℚ) / 100) = true ∧
        bonusPercentageOfPV ((n : ℚ) / 100) = t.pct ∧ t.pct ≠ 0) ∧
      bonusPercentageOfPV ((n : ℚ) / 100) ≠ 0 := by
  have hnz : bonusPercentageOfPV ((n : ℚ) / 100) ≠ 0 := by
    rw [bonusPercentageOfPV_hundredths]
    exact pctHundredths_ne_zero n h
  obtain ⟨t, ht, hc, hval⟩ := lookupSchedule_ne_zero BONUS_SCHEDULE ((n : ℚ) / 100) hnz
  exact ⟨⟨t, ht, hc, hval, fun hq => hnz (hval.trans hq)⟩, hnz⟩

/-- Witness for C2 at PV value 150 (the group PV of a childless IBO). -/
theorem C2_witness :
    (∃ t ∈ BONUS_SCHEDULE, tierContains t (((15000 : ℤ) : ℚ) / 100) = true ∧
        bonusPercentageOfPV (((15000 : ℤ) : ℚ) / 100) = t.pct ∧ t.pct ≠ 0) ∧
      bonusPercentageOfPV (((15000 : ℤ) : ℚ) / 100) ≠ 0 :=
  C2_covers_hundredths 15000 (by decide)

/-- C4: tier boundary exactness of the bonus-percentage lookup:
100.0 → 3 percent, 299.99 → 3 percent, 300.0 → 6 percent,
7499.99 → 23 percent, 7500.0 → 25 percent, and 99.99 → the defined
default 0. -/
theorem C4_tier_boundaries :
    bonusPercentageOfPV 100 = 0.03 ∧ bonusPercentageOfPV 299.99 = 0.03 ∧
      bonusPercentageOfPV 300 = 0.06 ∧ bonusPercentageOfPV 7499.99 = 0.23 ∧
      bonusPercentageOfPV 7500 = 0.25 ∧ bonusPercentageOfPV 99.99 = 0 := by
  norm_num [bonusPercentageOfPV, lookupSchedule, BONUS_SCHEDULE, tierContains]

/-- C3: for every participant in a finite tree (every node's personal PV
nonnegative, as the program guarantees by fixing it at 150), the group PV
equals personal PV plus the sum of the frontline children's group PVs, and
is ≥ personal PV ≥ 0. -/
theorem C3_group_pv_additivity (i : IBO) (h : allNonnegPV i = true) :
    calculate_group_pv i = i.personal_pv + (i.frontline.map calculate_group_pv).sum ∧
      i.personal_pv ≤ calculate_group_pv i ∧ 0 ≤ i.personal_pv := by
  obtain ⟨p, v, fl⟩ := i
  have h1 : (0 ≤ p) ∧ allNonnegPVList fl = true := by
    simpa [allNonnegPV, Bool.and_eq_true, decide_eq_true_eq] using h
  have hsum := sum_group_pv_nonneg fl h1.2
  refine ⟨?_, ?_, h1.1⟩
  · simp [calculate_group_pv, IBO.personal_pv, IBO.frontline, sum_group_pv_eq_map_sum]
  · simp only [calculate_group_pv, IBO.personal_pv]
    linarith

/-- Witness for C3 on a two-node tree. -/
theorem C3_witness :
    calculate_group_pv (IBO.node 150 90 [IBO.node 150 90 []]) =
        (IBO.node 150 90 [IBO.node 150 90 []]).personal_pv +
          ((IBO.node 150 90 [IBO.node 150 90 []]).frontline.map calculate_group_pv).sum ∧
      (IBO.node 150 90 [IBO.node 150 90 []]).personal_pv ≤
        calculate_group_pv (IBO.node 150 90 [IBO.node 150 90 []]) ∧
      0 ≤ (IBO.node 150 90 [IBO.node 150 90 []]).personal_pv :=
  C3_group_pv_additivity (IBO.node 150 90 [IBO.node 150 90 []]) (by decide)

/-- C5: `calculate_personal_bonus` fails exactly when
`vcs_pv < 0.6 * personal_pv`; with a positive personal PV,
`vcs_pv = 0.59 * personal_pv` fails and `vcs_pv = 0.6 * personal_pv` does
not; on success it returns bonus percentage times personal BV. -/
theorem C5_qualification_gate (i : IBO) :
    ((∃ e, calculate_personal_bonus i = .error e) ↔
        i.vcs_pv < 0.6 * i.personal_pv) ∧
      (0 < i.personal_pv → i.vcs_pv = 0.59 * i.personal_pv →
        ∃ e, calculate_personal_bonus i = .error e) ∧
      (i.vcs_pv = 0.6 * i.personal_pv →
        calculate_personal_bonus i =
          .ok (calculate_bonus_percentage i * calculate_personal_bv i)) ∧
      (¬ i.vcs_pv < 0.6 * i.personal_pv →
        calculate_personal_bonus i =
          .ok (calculate_bonus_percentage i * calculate_personal_bv i)) := by
  by_cases hg : i.vcs_pv < 0.6 * i.personal_pv
  · refine ⟨⟨fun _ => hg,
      fun _ => ⟨"VCS PV must be at least 60% of personal PV to qualify for the bonus.",
        by simp [calculate_personal_bonus, hg]⟩⟩,
      fun _ _ => ⟨"VCS PV must be at least 60% of personal PV to qualify for the bonus.",
        by simp [calculate_personal_bonus, hg]⟩, fun hv => ?_,
      fun hn => absurd hg hn⟩
    rw [hv] at hg
    exact absurd hg (lt_irrefl _)
  · refine ⟨⟨?_, fun hlt => absurd hlt hg⟩, fun hp hv => ?_, fun _ => ?_, fun _ => ?_⟩
    · rintro ⟨e, he⟩
      simp [calculate_personal_bonus, hg] at he
    · exfalso
      apply hg
      rw [hv]
      exact mul_lt_mul_of_pos_right (by norm_num) hp
    · simp [calculate_personal_bonus, hg]
    · simp [calculate_personal_bonus, hg]

/-- Witness for C5: a participant with `personal_pv = 100, vcs_pv = 59`
fails the gate; one with `personal_pv = 150, vcs_pv = 90` succeeds. -/
theorem C5_witness :
    (∃ e, calculate_personal_bonus (IBO.node 100 59 []) = .error e) ∧
      calculate_personal_bonus (IBO.node 150 90 []) =
        .ok (calculate_bonus_percentage (IBO.node 150 90 []) *
          calculate_personal_bv (IBO.node 150 90 [])) :=
  ⟨(C5_qualification_gate (IBO.node 100 59 [])).2.1
      (by norm_num [IBO.personal_pv])
      (by norm_num [IBO.vcs_pv, IBO.personal_pv]),
    (C5_qualification_gate (IBO.node 150 90 [])).2.2.2
      (by norm_num [IBO.vcs_pv, IBO.personal_pv])⟩

/-- C6: total earnings is the sum of personal bonus, differential bonus,
CSI bonus and retail profit when the participant qualifies, and propagates
the qualification error of `calculate_personal_bonus` otherwise. -/
theorem C6_total_earnings (i : IBO) :
    (∀ e, calculate_personal_bonus i = .error e →
        calculate_total_earnings i = .error e) ∧
      (∀ pb, calculate_personal_bonus i = .ok pb →
        calculate_total_earnings i = .ok (pb + calculate_differential_bonus i +
          calculate_csi_bonus i + calculate_retail_profit i)) := by
  constructor
  · intro e he
    simp [calculate_total_earnings, he]
  · intro pb hpb
    simp [calculate_total_earnings, hpb]

/-- Witness for C6: the qualification error propagates to
`calculate_total_earnings` for a participant failing the gate. -/
theorem C6_witness :
    calculate_total_earnings (IBO.node 100 59 []) =
      .error "VCS PV must be at least 60% of personal PV to qualify for the bonus." :=
  (C6_total_earnings (IBO.node 100 59 [])).1 _
    (by norm_num [calculate_personal_bonus, IBO.vcs_pv, IBO.personal_pv])

/-- C7: for an upline and one of its direct frontline children the
multiplier is `max(0, U.pct − C.pct)` and the amount is the multiplier
times the child's group BV, group BV being group PV times the ratio
3.36. -/
theorem C7_differential_formula (U C : IBO) (h : C ∈ U.frontline) :
    DifferentialBonus.calculate_multiplier ⟨U, C⟩ =
        max 0 (calculate_bonus_percentage U - calculate_bonus_percentage C) ∧
      DifferentialBonus.calculate_amount ⟨U, C⟩ =
        DifferentialBonus.calculate_multiplier ⟨U, C⟩ * calculate_group_bv C ∧
      calculate_group_bv C = calculate_group_pv C * 3.36 := by
  refine ⟨?_, ?_, ?_⟩
  · norm_num [DifferentialBonus.calculate_multiplier]
  · simp only [DifferentialBonus.calculate_amount, calculate_group_bv]
    ring
  · norm_num [calculate_group_bv, BV_TO_PV_RATIO]

/-- Witness for C7 on a parent with one child. -/
theorem C7_witness :
    DifferentialBonus.calculate_multiplier
        ⟨IBO.node 150 90 [IBO.node 150 90 []], IBO.node 150 90 []⟩ =
        max 0 (calculate_bonus_percentage (IBO.node 150 90 [IBO.node 150 90 []]) -
          calculate_bonus_percentage (IBO.node 150 90 [])) ∧
      DifferentialBonus.calculate_amount
          ⟨IBO.node 150 90 [IBO.node 150 90 []], IBO.node 150 90 []⟩ =
        DifferentialBonus.calculate_multiplier
            ⟨IBO.node 150 90 [IBO.node 150 90 []], IBO.node 150 90 []⟩ *
          calculate_group_bv (IBO.node 150 90 []) ∧
      calculate_group_bv (IBO.node 150 90 []) =
        calculate_group_pv (IBO.node 150 90 []) * 3.36 :=
  C7_differential_formula (IBO.node 150 90 [IBO.node 150 90 []])
    (IBO.node 150 90 []) (by simp [IBO.frontline])

/-- C8: the differential amount for a frontline pair is never negative
(group PVs being nonnegative, as the program guarantees), and is zero
whenever the child's bonus percentage is at least the upline's. -/
theorem C8_differential_nonneg (U C : IBO) (h : C ∈ U.frontline)
    (hn : allNonnegPV C = true) :
    0 ≤ DifferentialBonus.calculate_amount ⟨U, C⟩ ∧
      (calculate_bonus_percentage U ≤ calculate_bonus_percentage C →
        DifferentialBonus.calculate_amount ⟨U, C⟩ = 0) := by
  have hg : 0 ≤ calculate_group_pv C := group_pv_nonneg C hn
  have hr : (0 : ℚ) ≤ BV_TO_PV_RATIO := by norm_num [ BV_TO_PV_RATIO]
  constructor
  · refine mul_nonneg (mul_nonneg ?_ hg) hr
    exact le_max_of_le_left (by norm_num)
  · intro hc
    have hm : DifferentialBonus.calculate_multiplier ⟨U, C⟩ = 0 := by
      unfold DifferentialBonus.calculate_multiplier
      rw [show (0.0 : ℚ) = 0 from by norm_num]
      exact max_eq_left (sub_nonpos.mpr hc)
    unfold DifferentialBonus.calculate_amount
    rw [hm, zero_mul, zero_mul]

/-- Witness for C8 on a parent with one child. -/
theorem C8_witness :
    0 ≤ DifferentialBonus.calculate_amount
        ⟨IBO.node 150 90 [IBO.node 150 90 []], IBO.node 150 90 []⟩ :=
  (C8_differential_nonneg (IBO.node 150 90 [IBO.node 150 90 []])
    (IBO.node 150 90 []) (by simp [IBO.frontline]) (by decide)).1

/-- C9: the CSI percentage is `max(0, 0.10 − bonus_percentage)`, the CSI
bonus is `csi_percentage * vcs_pv * ratio` hard-clamped at 75.0, and an
uncapped value of 200.0 yields exactly 75.0. -/
theorem C9_csi_bonus (i : IBO) :
    calculate_csi_percentage i = max 0 (0.1 - calculate_bonus_percentage i) ∧
      calculate_csi_bonus i =
        min (calculate_csi_percentage i * i.vcs_pv * BV_TO_PV_RATIO) 75 ∧
      (calculate_csi_percentage i * i.vcs_pv * BV_TO_PV_RATIO = 200 →
        calculate_csi_bonus i = 75) := by
  refine ⟨by norm_num [calculate_csi_percentage],
    by norm_num [calculate_csi_bonus], ?_⟩
  intro h
  unfold calculate_csi_bonus
  rw [h]
  norm_num

/-- Witness for C9: a participant with zero bonus percentage and VCS PV
12500/21, whose uncapped CSI bonus is exactly 200, receives 75. -/
theorem C9_witness :
    calculate_csi_bonus (IBO.node 0 (12500 / 21) []) = 75 :=
  (C9_csi_bonus (IBO.node 0 (12500 / 21) [])).2.2
    (by norm_num [calculate_csi_percentage, calculate_bonus_percentage,
      calculate_group_pv, sum_group_pv, bonusPercentageOfPV, lookupSchedule,
      BONUS_SCHEDULE, tierContains, IBO.vcs_pv, BV_TO_PV_RATIO])

/-- C10: every node of a tree built through the public constructor has
`personal_pv = 150` and `vcs_pv = 90` (the embedding is pure, so no query
mutates them); `0.6 * 150 = 90` exactly, so the qualification gate passes
and neither `calculate_personal_bonus` nor `calculate_total_earnings`
fails on any such node. -/
theorem C10_ctor_trees_qualify (i : IBO) (h : builtByCtor i = true) :
    i.personal_pv = 150 ∧ i.vcs_pv = 90 ∧ (0.6 : ℚ) * 150 = 90 ∧
      calculate_personal_bonus i =
        .ok (calculate_bonus_percentage i * calculate_personal_bv i) ∧
      calculate_total_earnings i =
        .ok (calculate_bonus_percentage i * calculate_personal_bv i +
          calculate_differential_bonus i + calculate_csi_bonus i +
          calculate_retail_profit i) := by
  obtain ⟨p, v, fl⟩ := i
  have h1 : (p = 150) ∧ (v = 90) ∧ builtByCtorList fl = true := by
    simpa [builtByCtor, Bool.and_eq_true, decide_eq_true_eq, and_assoc] using h
  obtain ⟨hp, hv, -⟩ := h1
  subst hp
  subst hv
  have hg : ¬ (IBO.node (150 : ℚ) 90 fl).vcs_pv <
      0.6 * (IBO.node (150 : ℚ) 90 fl).personal_pv := by
    norm_num [IBO.vcs_pv, IBO.personal_pv]
  have hpb : calculate_personal_bonus (IBO.node 150 90 fl) =
      .ok (calculate_bonus_percentage (IBO.node 150 90 fl) *
        calculate_personal_bv (IBO.node 150 90 fl)) := by
    simp [calculate_personal_bonus, hg]
  refine ⟨by simp [IBO.personal_pv], by simp [IBO.vcs_pv], by norm_num, hpb, ?_⟩
  simp [calculate_total_earnings, hpb]

/-- Witness for C10 on a two-node constructor-built tree. -/
theorem C10_witness :
    (IBO.node 150 90 [IBO.node 150 90 []]).personal_pv = 150 ∧
      (IBO.node 150 90 [IBO.node 150 90 []]).vcs_pv = 90 ∧
      (0.6 : ℚ) * 150 = 90 ∧
      calculate_personal_bonus (IBO.node 150 90 [IBO.node 150 90 []]) =
        .ok (calculate_bonus_percentage (IBO.node 150 90 [IBO.node 150 90 []]) *
          calculate_personal_bv (IBO.node 150 90 [IBO.node 150 90 []])) ∧
      calculate_total_earnings (IBO.node 150 90 [IBO.node 150 90 []]) =
        .ok (calculate_bonus_percentage (IBO.node 150 90 [IBO.node 150 90 []]) *
          calculate_personal_bv (IBO.node 150 90 [IBO.node 150 90 []]) +
          calculate_differential_bonus (IBO.node 150 90 [IBO.node 150 90 []]) +
          calculate_csi_bonus (IBO.node 150 90 [IBO.node 150 90 []]) +
          calculate_retail_profit (IBO.node 150 90 [IBO.node 150 90 []])) :=
  C10_ctor_trees_qualify (IBO.node 150 90 [IBO.node 150 90 []]) (by decide)

end Amway
